import Mathlib

/-!
Shallow embedding of the Cross-Platform Content Genie client.

Sources embedded:
- `types.ts`: the `Tone`, `SocialPlatform`, `AspectRatio`, `PostContent` and
  `GenerationResult` types.
- `services/geminiService.ts`: module initialization (API-key check),
  `generateSocialPosts` and `generateImage`.  The two hosted services
  (`ai.models.generateContent` / `ai.models.generateImages`) are external
  effects; they are modelled as explicit oracle inputs (`TextServiceResponse`
  for the single text call, `ImageService` for the image calls), and the
  embedded functions compute what the TypeScript code computes from the
  oracle's answer.
- `App.tsx` (`handleGenerate`, `getAspectRatioForPlatform`, `platformConfig`):
  the React state (`results`, `loading`, `error`) becomes an explicit
  `AppState`; `handleGenerate` becomes a function from the captured inputs
  (`idea`, `tone`), the oracles and the pre-state to the terminal post-state,
  paired with the list of outbound network calls it performed.
-/

namespace ContentGenie

/-- Type `export enum Tone` from `types.ts`. -/
inductive Tone where
  | Professional
  | Witty
  | Urgent
deriving DecidableEq, Repr

/-- Type `export type SocialPlatform` (the union of 'LinkedIn', 'Twitter', 'Instagram') from `types.ts`. -/
inductive SocialPlatform where
  | LinkedIn
  | Twitter
  | Instagram
deriving DecidableEq, Repr

/-- Type `export type AspectRatio` (the union of '4:3', '16:9', '1:1') from `types.ts`. -/
inductive AspectRatio where
  | r4_3
  | r16_9
  | r1_1
deriving DecidableEq, Repr

/-- Record `export interface PostContent` from `types.ts`. -/
structure PostContent where
  platform : SocialPlatform
  text : String
  image_prompt : String
deriving DecidableEq, Repr

/-- Record `GenerationResult` (a `PostContent` extended with `imageUrl`) from `types.ts`. -/
structure GenerationResult where
  platform : SocialPlatform
  text : String
  image_prompt : String
  imageUrl : String
deriving DecidableEq, Repr

/-- The string value of a `Tone` enum member (`Tone.Professional = 'Professional'`, ...). -/
def toneStr : Tone → String
  | .Professional => "Professional"
  | .Witty => "Witty"
  | .Urgent => "Urgent"

/-! ## geminiService.ts: module initialization -/

/-- Module-load initialization of `services/geminiService.ts`:
`if (!process.env.API_KEY) throw new Error("API_KEY environment variable is not set")`
followed by `const ai = new GoogleGenAI({ apiKey: process.env.API_KEY })`.
The environment variable is `String`-valued or absent (`Option String`); a JS
string is falsy exactly when it is empty, so both `none` and `some ""` throw.
On success the value is the configured client (carrying the key). -/
def moduleInit (apiKey : Option String) : Except String String :=
  match apiKey with
  | none => Except.error "API_KEY environment variable is not set"
  | some k =>
      if k = "" then Except.error "API_KEY environment variable is not set"
      else Except.ok k

/-! ## geminiService.ts: generateSocialPosts -/

/-- Outcome of the single `ai.models.generateContent` call as observed by
`generateSocialPosts`: either the call throws (`failure`), or it returns a
response whose `.text` is then run through `JSON.parse`; `success none` is a
response whose text does not parse (`JSON.parse` throws), `success (some l)`
is a response parsing to the list `l` of `PostContent` records. -/
inductive TextServiceResponse where
  | failure
  | success (parsed : Option (List PostContent))
deriving DecidableEq, Repr

/-- The prompt template of `generateSocialPosts` (the template literal built
from `idea` and `tone`). -/
def promptFor (idea : String) (tone : Tone) : String :=
  let t := toneStr tone
  "\n    Based on the following idea and tone, generate tailored social media posts for LinkedIn, Twitter, and Instagram.\n\n    **Idea:** \"" ++ idea ++ "\"\n    **Tone:** \"" ++ t ++ "\"\n\n    **Platform-specific Instructions:**\n    - **LinkedIn:** Create a professional, long-form post (2-3 paragraphs) that encourages discussion and engagement.\n    - **Twitter:** Write a short, punchy tweet (under 280 characters) with a clear call-to-action or a thought-provoking question.\n    - **Instagram:** Craft a visually-focused caption. Start with a hook, provide some value, and include 3-5 relevant hashtags at the end.\n\n    For each post, also create a concise, descriptive prompt for an AI image generator that visually captures the essence of the post.\n  "

/-- Index function `platformOrder.indexOf` for `platformOrder = ['LinkedIn', 'Twitter', 'Instagram']`
(line 63 of `geminiService.ts`). -/
def platformOrderIdx : SocialPlatform → Nat
  | .LinkedIn => 0
  | .Twitter => 1
  | .Instagram => 2

/-- One insertion step of a stable insertion sort by `platformOrderIdx`; an
element is inserted before the first strictly-greater key, after equal keys. -/
def insertPost (a : PostContent) : List PostContent → List PostContent
  | [] => [a]
  | b :: l =>
      if platformOrderIdx a.platform ≤ platformOrderIdx b.platform then a :: b :: l
      else b :: insertPost a l

/-- Model of `parsedResponse.sort((a, b) => platformOrder.indexOf(a.platform) - platformOrder.indexOf(b.platform))`
(line 64 of `geminiService.ts`): `Array.prototype.sort` is a stable sort by
the comparator's order, modelled as a stable insertion sort by `platformOrderIdx`. -/
def sortPosts : List PostContent → List PostContent
  | [] => []
  | a :: l => insertPost a (sortPosts l)

/-- The message of the error re-thrown by `generateSocialPosts`' catch block. -/
def textGenErrMsg : String :=
  "Failed to generate content. Please check your input and try again."

/-- Function `generateSocialPosts` from `geminiService.ts` (lines 34-70): sends the
prompt built from `idea` and `tone`; on any error inside the try block — the
service call throwing, or `JSON.parse` of the response text throwing — the
catch block logs and re-throws the single generic error `textGenErrMsg`;
otherwise it returns the parsed list re-sorted into the fixed platform order. -/
def generateSocialPosts (idea : String) (tone : Tone) (resp : TextServiceResponse) :
    Except String (List PostContent) :=
  let _prompt := promptFor idea tone
  match resp with
  | .failure => Except.error textGenErrMsg
  | .success none => Except.error textGenErrMsg
  | .success (some parsed) => Except.ok (sortPosts parsed)

/-! ## geminiService.ts: generateImage -/

/-- Behaviour of the hosted image service (`ai.models.generateImages` together
with the extraction `response.generatedImages[0].image.imageBytes`), as a
function of the dispatched prompt and aspect ratio: `Except.ok bytes` is a
response with base64 image bytes, `Except.error` is a throw. -/
def ImageService : Type := String → AspectRatio → Except String String

/-- The prompt actually dispatched by `generateImage` for a caller-supplied
prompt: `` `High-quality, professional photograph style: ${prompt}` ``. -/
def generateImageRequest (prompt : String) : String :=
  "High-quality, professional photograph style: " ++ prompt

/-- The message of the error re-thrown by `generateImage`'s catch block. -/
def imageGenErrMsg : String := "Failed to generate an image for the post."

/-- Function `generateImage` from `geminiService.ts` (lines 73-91): wraps the prompt
with the fixed style qualifier, dispatches, and on success returns the data
URL `data:image/jpeg;base64,` ++ bytes; any error in the try block is caught
and re-thrown as the single generic error `imageGenErrMsg`. -/
def generateImage (svc : ImageService) (prompt : String) (aspectRatio : AspectRatio) :
    Except String String :=
  match svc (generateImageRequest prompt) aspectRatio with
  | .error _ => Except.error imageGenErrMsg
  | .ok bytes => Except.ok ("data:image/jpeg;base64," ++ bytes)

/-! ## App.tsx -/

/-- Function `getAspectRatioForPlatform` from `App.tsx` (lines 76-83).  The source's
`default: return '1:1'` arm is unreachable: `SocialPlatform` is a closed
three-value union and all three values have their own case. -/
def getAspectRatioForPlatform : SocialPlatform → AspectRatio
  | .LinkedIn => .r4_3
  | .Twitter => .r16_9
  | .Instagram => .r1_1

/-- The `aspectRatio` field of `platformConfig` in `ResultCard` (`App.tsx`
lines 44-48): LinkedIn ↦ '4:3', Twitter ↦ '16:9', Instagram ↦ '1:1'. -/
def platformConfigAspectRatio : SocialPlatform → AspectRatio
  | .LinkedIn => .r4_3
  | .Twitter => .r16_9
  | .Instagram => .r1_1

/-- The React state of `App` that `handleGenerate` writes: `results`,
`loading`, `error` (the `idea` and `tone` state values are the captured
inputs of `handleGenerate` and are never written by it). -/
structure AppState where
  results : Option (List GenerationResult)
  loading : Bool
  error : Option String
deriving DecidableEq, Repr

/-- One outbound network request: the text-generation call (with the
dispatched prompt) or an image-generation call (with the dispatched styled
prompt and aspect ratio). -/
inductive NetworkCall where
  | genText (prompt : String)
  | genImage (request : String) (aspectRatio : AspectRatio)
deriving DecidableEq, Repr

/-- The external world a `handleGenerate` run observes: the outcome of the
one text-generation call and the behaviour of the image service. -/
structure Env where
  textResponse : TextServiceResponse
  imageService : ImageService

/-- Spread `{ ...content, imageUrl }`: a `PostContent` completed with its image URL
(the spread in `initialResults`/`finalResults` of `handleGenerate`). -/
def toResult (c : PostContent) (url : String) : GenerationResult :=
  { platform := c.platform, text := c.text, image_prompt := c.image_prompt, imageUrl := url }

/-- The per-post image-generation outcomes started by `handleGenerate`
(`postContents.map(content => generateImage(content.image_prompt, getAspectRatioForPlatform(content.platform)))`). -/
def imageResults (svc : ImageService) (posts : List PostContent) :
    List (Except String String) :=
  posts.map (fun c => generateImage svc c.image_prompt (getAspectRatioForPlatform c.platform))

/-- The outbound image requests dispatched for a batch of posts (all three
are started together; `Promise.all` does not cancel the others when one
fails, so all requests are issued). -/
def imageCalls (posts : List PostContent) : List NetworkCall :=
  posts.map (fun c =>
    .genImage (generateImageRequest c.image_prompt) (getAspectRatioForPlatform c.platform))

/-- Model of `await Promise.all(imagePromises)`: resolves to the list of all values in
promise order when every promise fulfils, and rejects with the error of a
failing promise when any one rejects (join semantics: wait-for-all,
fail-on-any). -/
def sequenceExcept {ε α : Type} : List (Except ε α) → Except ε (List α)
  | [] => Except.ok []
  | x :: rest =>
      match x with
      | .error e => Except.error e
      | .ok a =>
          match sequenceExcept rest with
          | .error e => Except.error e
          | .ok as => Except.ok (a :: as)

/-- Model of `e.message || 'An unexpected error occurred.'` in the catch block of
`handleGenerate`: an empty message string is falsy and is replaced. -/
def fallbackMessage (m : String) : String :=
  if m = "" then "An unexpected error occurred." else m

/-- The try/catch/finally pipeline of `handleGenerate` after validation
passed: state after `setLoading(true); setError(null); setResults(null)`,
then the text call, then the image fan-out, with the catch block setting
`error` and clearing `results`, and the finally block clearing `loading`.
Returns the terminal state together with the network calls performed.
(The intermediate `setResults(initialResults)` — all `imageUrl`s empty — is
overwritten before the run terminates and is not part of the terminal state.) -/
def runPipeline (env : Env) (idea : String) (tone : Tone) :
    AppState × List NetworkCall :=
  match generateSocialPosts idea tone env.textResponse with
  | .error m =>
      ({ results := none, loading := false, error := some (fallbackMessage m) },
       [.genText (promptFor idea tone)])
  | .ok posts =>
      match sequenceExcept (imageResults env.imageService posts) with
      | .error m =>
          ({ results := none, loading := false, error := some (fallbackMessage m) },
           .genText (promptFor idea tone) :: imageCalls posts)
      | .ok urls =>
          ({ results := some (List.zipWith toResult posts urls),
             loading := false, error := none },
           .genText (promptFor idea tone) :: imageCalls posts)

/-- JavaScript `String.prototype.trim()`: removes whitespace from both ends
of the string (modelled on the character list; structural recursion so that
concrete inputs evaluate). -/
def jsTrim (s : String) : String :=
  String.mk (((s.data.dropWhile Char.isWhitespace).reverse.dropWhile Char.isWhitespace).reverse)

/-- Function `handleGenerate` from `App.tsx` (lines 85-122): validation
(`if (!idea.trim()) { setError('Please enter an idea.'); return; }` — a JS
string is falsy exactly when empty, so this fires exactly when the trimmed
idea is empty) followed by the generation pipeline.  Result: the terminal
`AppState` and the list of outbound network calls of the run. -/
def handleGenerate (env : Env) (idea : String) (tone : Tone) (s : AppState) :
    AppState × List NetworkCall :=
  if jsTrim idea = "" then
    ({ s with error := some "Please enter an idea." }, [])
  else
    runPipeline env idea tone

/-! ## Helper lemmas -/

theorem insertPost_perm (a : PostContent) (l : List PostContent) :
    (insertPost a l).Perm (a :: l) := by
  induction l with
  | nil => simp [insertPost]
  | cons b l ih =>
      simp only [insertPost]
      split
      · exact List.Perm.refl _
      · exact (List.Perm.cons b ih).trans (List.Perm.swap a b l)

theorem sortPosts_perm (l : List PostContent) : (sortPosts l).Perm l := by
  induction l with
  | nil => simp [sortPosts]
  | cons a l ih =>
      exact (insertPost_perm a (sortPosts l)).trans (List.Perm.cons a ih)

theorem generateImage_error_shape (svc : ImageService) (p : String) (r : AspectRatio)
    (m : String) (h : generateImage svc p r = Except.error m) : m = imageGenErrMsg := by
  unfold generateImage at h
  cases hs : svc (generateImageRequest p) r with
  | error e =>
      rw [hs] at h
      simp only [Except.error.injEq] at h
      exact h.symm
  | ok b =>
      rw [hs] at h
      simp at h

theorem sequenceExcept_error_of_mem {ε α : Type} (l : List (Except ε α)) (e : ε)
    (h : Except.error e ∈ l) : ∃ m, sequenceExcept l = Except.error m := by
  induction l with
  | nil => simp at h
  | cons x rest ih =>
      cases x with
      | error e0 => exact ⟨e0, rfl⟩
      | ok a =>
          simp only [List.mem_cons] at h
          rcases h with h | h
          · exact absurd h (by simp)
          · obtain ⟨m, hm⟩ := ih h
            exact ⟨m, by simp [sequenceExcept, hm]⟩

theorem sequenceExcept_error_mem {ε α : Type} (l : List (Except ε α)) (m : ε)
    (h : sequenceExcept l = Except.error m) : Except.error m ∈ l := by
  induction l with
  | nil => simp [sequenceExcept] at h
  | cons x rest ih =>
      cases x with
      | error e0 =>
          simp only [sequenceExcept] at h
          cases h
          exact List.mem_cons_self _ _
      | ok a =>
          simp only [sequenceExcept] at h
          cases hrest : sequenceExcept rest with
          | error e1 =>
              rw [hrest] at h
              cases h
              exact List.mem_cons_of_mem _ (ih hrest)
          | ok as => rw [hrest] at h; cases h

theorem sequenceExcept_ok_length {ε α : Type} (l : List (Except ε α)) (out : List α)
    (h : sequenceExcept l = Except.ok out) : out.length = l.length := by
  induction l generalizing out with
  | nil => simp [sequenceExcept] at h; simp [← h]
  | cons x rest ih =>
      cases x with
      | error e0 => simp [sequenceExcept] at h
      | ok a =>
          simp only [sequenceExcept] at h
          cases hrest : sequenceExcept rest with
          | error e1 => rw [hrest] at h; cases h
          | ok as =>
              rw [hrest] at h
              cases h
              simp [ih as hrest]

theorem sequenceExcept_ok_get {ε α : Type} (l : List (Except ε α)) (out : List α)
    (h : sequenceExcept l = Except.ok out) (i : Nat) (x : Except ε α)
    (hx : l[i]? = some x) : ∃ u, x = Except.ok u ∧ out[i]? = some u := by
  induction l generalizing out i with
  | nil => simp at hx
  | cons y rest ih =>
      cases y with
      | error e0 => simp [sequenceExcept] at h
      | ok a =>
          simp only [sequenceExcept] at h
          cases hrest : sequenceExcept rest with
          | error e1 => rw [hrest] at h; cases h
          | ok as =>
              rw [hrest] at h
              cases h
              cases i with
              | zero =>
                  simp at hx
                  exact ⟨a, hx.symm, by simp⟩
              | succ n =>
                  simp only [List.getElem?_cons_succ] at hx ⊢
                  exact ih as hrest n hx

theorem zipWith_getElem_some {α β γ : Type} (f : α → β → γ) (as : List α) (bs : List β)
    (i : Nat) (a : α) (b : β) (ha : as[i]? = some a) (hb : bs[i]? = some b) :
    (List.zipWith f as bs)[i]? = some (f a b) := by
  induction as generalizing bs i with
  | nil => simp at ha
  | cons x xs ih =>
      cases bs with
      | nil => simp at hb
      | cons y ys =>
          cases i with
          | zero => simp at ha hb; simp [ha, hb]
          | succ n =>
              simp only [List.getElem?_cons_succ] at ha hb
              simpa using ih ys n ha hb

/-! ## Claim theorems -/

/-- C3: for every idea that is empty or whitespace-only (its JS trim is
empty), `handleGenerate` performs no network call — the list of outbound
calls of the run is empty, so neither the text-generation call nor any
image-generation call is dispatched — and the validation error state is set. -/
theorem handleGenerate_blank_idea_no_network
    (env : Env) (idea : String) (tone : Tone) (s : AppState)
    (h : jsTrim idea = "") :
    (handleGenerate env idea tone s).2 = [] ∧
    (handleGenerate env idea tone s).1.error = some "Please enter an idea." := by
  simp [handleGenerate, h]

theorem handleGenerate_blank_idea_no_network_witness :
    (handleGenerate ⟨.failure, fun _ _ => Except.error ""⟩ " \t " Tone.Professional
        ⟨none, false, none⟩).2 = [] ∧
    (handleGenerate ⟨.failure, fun _ _ => Except.error ""⟩ " \t " Tone.Professional
        ⟨none, false, none⟩).1.error = some "Please enter an idea." :=
  handleGenerate_blank_idea_no_network _ " \t " Tone.Professional _ (by decide)

/-- C10: on a validation failure (empty or whitespace-only idea),
`handleGenerate` modifies only the `error` field: the prior result set and
the loading flag are left exactly as they were (so previously displayed
results remain, and `loading` stays `false` whenever it was `false`). -/
theorem handleGenerate_blank_idea_frame
    (env : Env) (idea : String) (tone : Tone) (s : AppState)
    (h : jsTrim idea = "") :
    (handleGenerate env idea tone s).1.results = s.results ∧
    (handleGenerate env idea tone s).1.loading = s.loading ∧
    (handleGenerate env idea tone s).1.error = some "Please enter an idea." := by
  simp [handleGenerate, h]

theorem handleGenerate_blank_idea_frame_witness :
    (handleGenerate ⟨.success none, fun _ _ => Except.ok "B"⟩ "   " Tone.Witty
        ⟨some [⟨.LinkedIn, "old text", "old prompt", "old url"⟩], false, none⟩).1.results
      = (⟨some [⟨.LinkedIn, "old text", "old prompt", "old url"⟩], false, none⟩ : AppState).results ∧
    (handleGenerate ⟨.success none, fun _ _ => Except.ok "B"⟩ "   " Tone.Witty
        ⟨some [⟨.LinkedIn, "old text", "old prompt", "old url"⟩], false, none⟩).1.loading
      = (⟨some [⟨.LinkedIn, "old text", "old prompt", "old url"⟩], false, none⟩ : AppState).loading ∧
    (handleGenerate ⟨.success none, fun _ _ => Except.ok "B"⟩ "   " Tone.Witty
        ⟨some [⟨.LinkedIn, "old text", "old prompt", "old url"⟩], false, none⟩).1.error
      = some "Please enter an idea." :=
  handleGenerate_blank_idea_frame _ "   " Tone.Witty _ (by decide)

/-- C5: the platform-to-aspect-ratio mapping is a fixed total function:
`getAspectRatioForPlatform` maps LinkedIn to 4:3, Twitter to 16:9 and
Instagram to 1:1 — these three cases cover every input of the closed
platform enumeration, and neither idea, tone nor generated content occurs
among its arguments — and the `platformConfig` table of `ResultCard` assigns
each platform the same aspect ratio. -/
theorem getAspectRatioForPlatform_fixed :
    getAspectRatioForPlatform .LinkedIn = .r4_3 ∧
    getAspectRatioForPlatform .Twitter = .r16_9 ∧
    getAspectRatioForPlatform .Instagram = .r1_1 ∧
    ∀ p : SocialPlatform, platformConfigAspectRatio p = getAspectRatioForPlatform p :=
  ⟨rfl, rfl, rfl, fun p => by cases p <;> rfl⟩

/-- C6: the prompt `generateImage` dispatches is the caller's prompt wrapped
with the one fixed style qualifier — `generateImageRequest p` is a pure
function of `p` alone (identical on any two runs with the same `p`, and tone
is not among its arguments) — and `generateImage`'s outcome depends on the
image service only through its answer at that dispatched prompt. -/
theorem generateImage_fixed_style_wrapper
    (p : String) (ratio : AspectRatio) (svc svc' : ImageService)
    (h : svc (generateImageRequest p) ratio = svc' (generateImageRequest p) ratio) :
    generateImageRequest p = "High-quality, professional photograph style: " ++ p ∧
    generateImage svc p ratio = generateImage svc' p ratio :=
  ⟨rfl, by unfold generateImage; rw [h]⟩

theorem generateImage_fixed_style_wrapper_witness :
    generateImageRequest "a sunrise"
      = "High-quality, professional photograph style: " ++ "a sunrise" ∧
    generateImage (fun _ _ => Except.ok "QUJD") "a sunrise" AspectRatio.r1_1
      = generateImage (fun _ _ => Except.ok ("QU" ++ "JD")) "a sunrise" AspectRatio.r1_1 :=
  generateImage_fixed_style_wrapper "a sunrise" AspectRatio.r1_1 _ _ rfl

/-- C7: every run of `generateSocialPosts` either returns the complete
parsed response re-sorted (a permutation of the full parsed list — never a
partial subset), or fails with the single generic user-facing message
`textGenErrMsg`; in particular both a service error and an unparseable
response (a `JSON.parse` failure) are caught and collapsed to that one
generic failure. -/
theorem generateSocialPosts_failure_policy
    (idea : String) (tone : Tone) (resp : TextServiceResponse) :
    (∃ l, resp = TextServiceResponse.success (some l) ∧
        generateSocialPosts idea tone resp = Except.ok (sortPosts l) ∧
        (sortPosts l).Perm l) ∨
    generateSocialPosts idea tone resp = Except.error textGenErrMsg := by
  cases resp with
  | failure => exact Or.inr rfl
  | success parsed =>
      cases parsed with
      | none => exact Or.inr rfl
      | some l => exact Or.inl ⟨l, rfl, rfl, sortPosts_perm l⟩

/-- C8: the API key is the single credential read from the process
environment at module load; when it is absent, `moduleInit` throws the fatal
startup error and produces no client value, so no service function can run
(in the source the throw happens at module top level, before the client
`ai` that both service functions use is even constructed). -/
theorem moduleInit_missing_key_fatal :
    moduleInit none = Except.error "API_KEY environment variable is not set" ∧
    (moduleInit none).isOk = false :=
  ⟨rfl, rfl⟩

theorem sortPosts_map_one_per_platform (l : List PostContent)
    (h : (l.map PostContent.platform).Perm
        [SocialPlatform.LinkedIn, SocialPlatform.Twitter, SocialPlatform.Instagram]) :
    (sortPosts l).map PostContent.platform
      = [SocialPlatform.LinkedIn, SocialPlatform.Twitter, SocialPlatform.Instagram] := by
  have hlen : l.length = 3 := by simpa using h.length_eq
  match l, hlen with
  | [a, b, c], _ =>
    simp only [List.map_cons, List.map_nil] at h
    cases hpa : a.platform <;> cases hpb : b.platform <;> cases hpc : c.platform <;>
      rw [hpa, hpb, hpc] at h <;>
      first
        | exact absurd h (by decide)
        | simp [sortPosts, insertPost, platformOrderIdx, hpa, hpb, hpc]

/-- C1 (counterexample): the multiplicity of the service response is not
normalized.  On the valid (non-empty) idea "x" with tone Professional, a
service response parsing to a single Instagram entry makes
`generateSocialPosts` return exactly that single entry: one `PostContent`,
not three, with no LinkedIn or Twitter entry. -/
theorem generateSocialPosts_multiplicity_counterexample :
    generateSocialPosts "x" Tone.Professional
        (TextServiceResponse.success (some [⟨SocialPlatform.Instagram, "t", "ip"⟩]))
      = Except.ok [⟨SocialPlatform.Instagram, "t", "ip"⟩] ∧
    Except.map List.length
        (generateSocialPosts "x" Tone.Professional
          (TextServiceResponse.success (some [⟨SocialPlatform.Instagram, "t", "ip"⟩])))
      = Except.ok 1 :=
  ⟨rfl, rfl⟩

/-- C1 (amended): for every valid idea and tone, whenever the underlying
service's response parses to a list containing exactly one entry per
platform — in any order — `generateSocialPosts` returns exactly three
`PostContent` entries, one per platform, in the fixed order
[LinkedIn, Twitter, Instagram]; in general the function only re-sorts the
parsed list (a permutation of it is returned), and does not repair its
multiplicity. -/
theorem generateSocialPosts_one_per_platform_ordered
    (idea : String) (tone : Tone) (l posts : List PostContent)
    (hone : (l.map PostContent.platform).Perm
        [SocialPlatform.LinkedIn, SocialPlatform.Twitter, SocialPlatform.Instagram])
    (h : generateSocialPosts idea tone (TextServiceResponse.success (some l))
        = Except.ok posts) :
    posts.length = 3 ∧
    posts.map PostContent.platform
      = [SocialPlatform.LinkedIn, SocialPlatform.Twitter, SocialPlatform.Instagram] ∧
    posts.Perm l := by
  have hp : sortPosts l = posts := by
    simpa [generateSocialPosts] using h
  subst hp
  have hmap := sortPosts_map_one_per_platform l hone
  refine ⟨?_, hmap, sortPosts_perm l⟩
  have := congrArg List.length hmap
  simpa using this

theorem generateSocialPosts_one_per_platform_ordered_witness :
    ([(⟨SocialPlatform.LinkedIn, "t1", "p1"⟩ : PostContent),
      ⟨SocialPlatform.Twitter, "t2", "p2"⟩,
      ⟨SocialPlatform.Instagram, "t3", "p3"⟩] : List PostContent).length = 3 ∧
    ([(⟨SocialPlatform.LinkedIn, "t1", "p1"⟩ : PostContent),
      ⟨SocialPlatform.Twitter, "t2", "p2"⟩,
      ⟨SocialPlatform.Instagram, "t3", "p3"⟩] : List PostContent).map PostContent.platform
      = [SocialPlatform.LinkedIn, SocialPlatform.Twitter, SocialPlatform.Instagram] ∧
    ([(⟨SocialPlatform.LinkedIn, "t1", "p1"⟩ : PostContent),
      ⟨SocialPlatform.Twitter, "t2", "p2"⟩,
      ⟨SocialPlatform.Instagram, "t3", "p3"⟩] : List PostContent).Perm
      [⟨SocialPlatform.Twitter, "t2", "p2"⟩,
       ⟨SocialPlatform.Instagram, "t3", "p3"⟩,
       ⟨SocialPlatform.LinkedIn, "t1", "p1"⟩] :=
  generateSocialPosts_one_per_platform_ordered "x" Tone.Witty
    [⟨SocialPlatform.Twitter, "t2", "p2"⟩,
     ⟨SocialPlatform.Instagram, "t3", "p3"⟩,
     ⟨SocialPlatform.LinkedIn, "t1", "p1"⟩]
    [⟨SocialPlatform.LinkedIn, "t1", "p1"⟩,
     ⟨SocialPlatform.Twitter, "t2", "p2"⟩,
     ⟨SocialPlatform.Instagram, "t3", "p3"⟩]
    (by decide) rfl

/-- C4: if either pipeline stage fails — the text-generation call returns an
error, or the text call succeeds and the joined image fan-out fails — then
the terminal state of `handleGenerate` has the result set cleared to `none`,
the loading flag cleared, and an error message set: no stale or partial
results remain alongside the error. -/
theorem handleGenerate_failure_clears_results
    (env : Env) (idea : String) (tone : Tone) (s : AppState)
    (hidea : ¬ jsTrim idea = "")
    (h : (∃ m, generateSocialPosts idea tone env.textResponse = Except.error m) ∨
         (∃ posts, generateSocialPosts idea tone env.textResponse = Except.ok posts ∧
            ∃ m, sequenceExcept (imageResults env.imageService posts) = Except.error m)) :
    (handleGenerate env idea tone s).1.results = none ∧
    (handleGenerate env idea tone s).1.loading = false ∧
    ∃ m, (handleGenerate env idea tone s).1.error = some m := by
  rcases h with ⟨m, hm⟩ | ⟨posts, hposts, m, hm⟩
  · simp [handleGenerate, hidea, runPipeline, hm]
  · simp [handleGenerate, hidea, runPipeline, hposts, hm]

theorem handleGenerate_failure_clears_results_witness :
    (handleGenerate ⟨.failure, fun _ _ => Except.ok "B"⟩ "launch an app" Tone.Urgent
        ⟨some [⟨.Twitter, "old", "old", "old"⟩], true, none⟩).1.results = none ∧
    (handleGenerate ⟨.failure, fun _ _ => Except.ok "B"⟩ "launch an app" Tone.Urgent
        ⟨some [⟨.Twitter, "old", "old", "old"⟩], true, none⟩).1.loading = false ∧
    ∃ m, (handleGenerate ⟨.failure, fun _ _ => Except.ok "B"⟩ "launch an app" Tone.Urgent
        ⟨some [⟨.Twitter, "old", "old", "old"⟩], true, none⟩).1.error = some m :=
  handleGenerate_failure_clears_results _ "launch an app" Tone.Urgent _
    (by decide) (Or.inl ⟨textGenErrMsg, rfl⟩)

/-- C2: if the text stage succeeded and any one of the per-post
image-generation calls fails, `handleGenerate`'s terminal state is a single
generation failure: the result set is `none` (no state with some images
present and others missing is left) and the error is the one image-failure
message. -/
theorem handleGenerate_image_failure_all_or_nothing
    (env : Env) (idea : String) (tone : Tone) (s : AppState)
    (posts : List PostContent) (p : PostContent)
    (hidea : ¬ jsTrim idea = "")
    (hposts : generateSocialPosts idea tone env.textResponse = Except.ok posts)
    (hp : p ∈ posts)
    (hfail : ∃ m, generateImage env.imageService p.image_prompt
        (getAspectRatioForPlatform p.platform) = Except.error m) :
    (handleGenerate env idea tone s).1.results = none ∧
    (handleGenerate env idea tone s).1.error = some imageGenErrMsg := by
  obtain ⟨m0, hm0⟩ := hfail
  have hmem : Except.error m0 ∈ imageResults env.imageService posts := by
    unfold imageResults
    exact List.mem_map.mpr ⟨p, hp, hm0⟩
  obtain ⟨m, hseq⟩ := sequenceExcept_error_of_mem _ _ hmem
  have hmmem := sequenceExcept_error_mem _ _ hseq
  obtain ⟨q, _, hqe⟩ := List.mem_map.mp hmmem
  have hfix : m = imageGenErrMsg := generateImage_error_shape _ _ _ _ hqe
  subst hfix
  have hfb : fallbackMessage imageGenErrMsg = imageGenErrMsg := by decide
  simp [handleGenerate, hidea, runPipeline, hposts, hseq, hfb]

theorem handleGenerate_image_failure_all_or_nothing_witness :
    (handleGenerate ⟨.success (some [⟨.Twitter, "t", "ip"⟩]), fun _ _ => Except.error "boom"⟩
        "x" Tone.Professional ⟨none, false, none⟩).1.results = none ∧
    (handleGenerate ⟨.success (some [⟨.Twitter, "t", "ip"⟩]), fun _ _ => Except.error "boom"⟩
        "x" Tone.Professional ⟨none, false, none⟩).1.error = some imageGenErrMsg :=
  handleGenerate_image_failure_all_or_nothing _ "x" Tone.Professional _
    [⟨.Twitter, "t", "ip"⟩] ⟨.Twitter, "t", "ip"⟩
    (by decide) rfl (List.mem_singleton.mpr rfl) ⟨imageGenErrMsg, rfl⟩

/-- C9: on the fully successful path, the final result set is index-aligned
with the generated posts: entry `i` carries post `i`'s platform, text and
image prompt, together with exactly the image generated from post `i`'s
image prompt at post `i`'s platform aspect ratio (the join preserves the
order of the image promises). -/
theorem handleGenerate_success_index_aligned
    (env : Env) (idea : String) (tone : Tone) (s : AppState)
    (posts : List PostContent) (urls : List String) (i : Nat) (p : PostContent)
    (hidea : ¬ jsTrim idea = "")
    (hposts : generateSocialPosts idea tone env.textResponse = Except.ok posts)
    (hurls : sequenceExcept (imageResults env.imageService posts) = Except.ok urls)
    (hpi : posts[i]? = some p) :
    ∃ u, generateImage env.imageService p.image_prompt (getAspectRatioForPlatform p.platform)
          = Except.ok u ∧
      ∃ rs, (handleGenerate env idea tone s).1.results = some rs ∧
        rs.length = posts.length ∧ rs[i]? = some (toResult p u) := by
  have hxi : (imageResults env.imageService posts)[i]? =
      some (generateImage env.imageService p.image_prompt
        (getAspectRatioForPlatform p.platform)) := by
    unfold imageResults
    rw [List.getElem?_map, hpi]
    rfl
  obtain ⟨u, hu, hui⟩ := sequenceExcept_ok_get _ _ hurls i _ hxi
  have hlen : urls.length = posts.length := by
    have h1 := sequenceExcept_ok_length _ _ hurls
    simpa [imageResults] using h1
  refine ⟨u, hu, List.zipWith toResult posts urls, ?_, ?_, ?_⟩
  · simp [handleGenerate, hidea, runPipeline, hposts, hurls]
  · simp [List.length_zipWith, hlen]
  · exact zipWith_getElem_some toResult posts urls i p u hpi hui

theorem handleGenerate_success_index_aligned_witness :
    ∃ u, generateImage (fun _ _ => Except.ok "IMG")
          (PostContent.image_prompt ⟨SocialPlatform.Instagram, "cap", "pr"⟩)
          (getAspectRatioForPlatform
            (PostContent.platform ⟨SocialPlatform.Instagram, "cap", "pr"⟩))
        = Except.ok u ∧
      ∃ rs, (handleGenerate ⟨.success (some [⟨.Instagram, "cap", "pr"⟩]), fun _ _ => Except.ok "IMG"⟩
          "my idea" Tone.Professional ⟨none, false, none⟩).1.results = some rs ∧
        rs.length = ([(⟨SocialPlatform.Instagram, "cap", "pr"⟩ : PostContent)]).length ∧
        rs[0]? = some (toResult ⟨SocialPlatform.Instagram, "cap", "pr"⟩ u) :=
  handleGenerate_success_index_aligned
    ⟨.success (some [⟨.Instagram, "cap", "pr"⟩]), fun _ _ => Except.ok "IMG"⟩
    "my idea" Tone.Professional ⟨none, false, none⟩
    [⟨.Instagram, "cap", "pr"⟩] ["data:image/jpeg;base64," ++ "IMG"] 0
    ⟨.Instagram, "cap", "pr"⟩ (by decide) rfl rfl rfl

end ContentGenie
